import Mathlib

/-!
A shallow embedding of the QuickScan backend (Rust sources
`src/backend/src/auth.rs`, `storage.rs`, `handlers.rs`, `error.rs`,
`models.rs`), together with theorems checking the natural-language
specification's claims about the authentication layer, the storage backend
abstraction, the in-memory file registry and the expiry sweeper.

Effectful primitives (filesystem reads/removals, outbound HTTP calls,
password hashing) are modelled as explicit outcome oracles passed to the
embedded functions, and each storage operation additionally returns the
list of backend actions it performed, so that dispatch and orchestration
properties can be stated.
-/

namespace QuickScan

/-- Bytes of a file, abstracted as a list of natural numbers. -/
abbrev ByteSeq := List Nat

/-- Model of `uuid::Uuid`: the canonical hyphenated lowercase rendering,
which is what `Display` for `Uuid` produces and what all the embedded code
stores and compares. -/
abbrev Uuid := String

/-- Whether a character is an ASCII hexadecimal digit (`0-9`, `a-f`, `A-F`). -/
def isHexDigit (c : Char) : Bool :=
  decide ((48 ≤ c.toNat ∧ c.toNat ≤ 57) ∨ (97 ≤ c.toNat ∧ c.toNat ≤ 102) ∨
    (65 ≤ c.toNat ∧ c.toNat ≤ 70))

/-- Checks the 8-4-4-4-12 hyphenated UUID shape: hyphens exactly at indices
8, 13, 18 and 23, hexadecimal digits everywhere else, length 36. -/
def hyphenatedShape (cs : List Char) : Bool :=
  cs.length == 36 &&
    (cs.enum.all fun p =>
      if p.1 = 8 ∨ p.1 = 13 ∨ p.1 = 18 ∨ p.1 = 23 then p.2 == '-'
      else isHexDigit p.2)

/-- Inserts the four hyphens of the canonical form into 32 bare hex digits. -/
def hyphenate (cs : List Char) : List Char :=
  cs.take 8 ++ '-' :: (cs.drop 8).take 4 ++ '-' :: (cs.drop 12).take 4 ++
    '-' :: (cs.drop 16).take 4 ++ '-' :: cs.drop 20

/-- Model of `uuid::Uuid::parse_str`: accepts the simple (32 hex digits),
hyphenated (8-4-4-4-12), braced and URN textual forms, and normalises to the
canonical hyphenated lowercase form.  Any other string is rejected. -/
def Uuid.parse_str (s : String) : Option Uuid :=
  let cs := s.data
  if cs.length = 32 then
    if cs.all isHexDigit then some (String.mk (hyphenate (cs.map Char.toLower)))
    else none
  else if hyphenatedShape cs then
    some (String.mk (cs.map Char.toLower))
  else if cs.length = 38 ∧ cs.take 1 = ['{'] ∧ cs.drop 37 = ['}'] ∧
      hyphenatedShape ((cs.drop 1).take 36) then
    some (String.mk (((cs.drop 1).take 36).map Char.toLower))
  else if cs.length = 45 ∧ cs.take 9 = "urn:uuid:".data ∧
      hyphenatedShape (cs.drop 9) then
    some (String.mk ((cs.drop 9).map Char.toLower))
  else none

/-- Model of Rust's `char::is_alphanumeric` (Unicode Alphabetic or Nd/Nl/No),
tabulated exactly for the code points U+0000 .. U+00FF (ASCII letters and
digits; the Latin-1 ordinal indicators, micro sign, superscripts and vulgar
fractions; the accented Latin-1 letters, excluding multiplication and
division signs).  All theorems that quantify over strings restrict
themselves to this range, where the table is exact. -/
def rustIsAlphanumeric (c : Char) : Bool :=
  let n := c.toNat
  decide ((65 ≤ n ∧ n ≤ 90) ∨ (97 ≤ n ∧ n ≤ 122) ∨ (48 ≤ n ∧ n ≤ 57) ∨
    n = 170 ∨ n = 181 ∨ n = 186 ∨
    n = 178 ∨ n = 179 ∨ n = 185 ∨ (188 ≤ n ∧ n ≤ 190) ∨
    (192 ≤ n ∧ n ≤ 214) ∨ (216 ≤ n ∧ n ≤ 246) ∨ (248 ≤ n ∧ n ≤ 255))

/-- Translation of `sanitize_filename` (storage.rs): keep a character when
`c.is_alphanumeric() || c == '.' || c == '-' || c == '_'`, replace it by
an underscore otherwise. -/
def sanitize_filename (filename : String) : String :=
  String.mk (filename.data.map fun c =>
    if rustIsAlphanumeric c || c == '.' || c == '-' || c == '_' then c
    else '_')

/-- Whether a character lies in the specification's allowed set
`[A-Za-z0-9._-]` (all ASCII). -/
def specAllowedChar (c : Char) : Bool :=
  decide ((65 ≤ c.toNat ∧ c.toNat ≤ 90) ∨ (97 ≤ c.toNat ∧ c.toNat ≤ 122) ∨
    (48 ≤ c.toNat ∧ c.toNat ≤ 57)) || c == '.' || c == '-' || c == '_'

/-- The sanitization rule exactly as the specification words it: every
character outside `[A-Za-z0-9._-]` becomes an underscore, every character
inside is unchanged.  Kept separate from `sanitize_filename` so the two can
be compared. -/
def spec_sanitize_filename (filename : String) : String :=
  String.mk (filename.data.map fun c => if specAllowedChar c then c else '_')

/-- Whether every character of a string is plain ASCII. -/
def allAscii (s : String) : Bool :=
  s.data.all fun c => c.toNat < 128

/-- Translation of `enum StorageType` (storage.rs): the two storage
backends. -/
inductive StorageType where
  | Temporary
  | Supabase
deriving DecidableEq, Repr

/-- Translation of `struct StoredFile` (storage.rs): the metadata record
kept in the file registry for every uploaded file. -/
structure StoredFile where
  id : Uuid
  filename : String
  file_size : Nat
  content_type : Option String
  storage_path : String
  storage_type : StorageType
  timestamp : String
  download_url : Option String
deriving DecidableEq, Repr

/-- Translation of `struct StorageConfig` (storage.rs). -/
structure StorageConfig where
  storage_type : StorageType
  temp_dir : Option String
  supabase_url : Option String
  supabase_key : Option String
  supabase_bucket : Option String
deriving DecidableEq, Repr

/-- Translation of `enum AppError` (error.rs), restricted to the variants
the embedded handlers and services construct. -/
inductive AppError where
  | ValidationError (msg : String)
  | InternalError (msg : String)
  | NotFoundError (msg : String)
  | StorageError (msg : String)
  | AuthError (msg : String)
deriving DecidableEq, Repr

/-- Whether an error belongs to the not-found class (the `NotFoundError`
variant, HTTP 404). -/
def AppError.isNotFoundClass : AppError → Bool
  | .NotFoundError _ => true
  | _ => false

/-- An observable backend action of the storage service: a local
filesystem access or an outbound HTTP request to the remote object store. -/
inductive Action where
  | fsRead (path : String)
  | fsRemove (path : String)
  | httpGet (url : String)
  | httpDelete (url : String)
  | httpSignPost (url : String)
deriving DecidableEq, Repr

/-- Whether an action is a local-filesystem access. -/
def Action.isLocal : Action → Bool
  | .fsRead _ => true
  | .fsRemove _ => true
  | _ => false

/-- Whether an action is an outbound HTTP request to the remote store. -/
def Action.isRemote : Action → Bool
  | .httpGet _ => true
  | .httpDelete _ => true
  | .httpSignPost _ => true
  | _ => false

/-- Every action in a trace is a local-filesystem access. -/
def localOnly (tr : List Action) : Prop :=
  ∀ a ∈ tr, a.isLocal = true

/-- Every action in a trace is a remote-HTTP access. -/
def remoteOnly (tr : List Action) : Prop :=
  ∀ a ∈ tr, a.isRemote = true

/-- Outcome of the remote GET performed by `get_file` for Supabase files:
transport failure, non-success HTTP status, failure while reading the body
bytes, or success with the body bytes. -/
inductive HttpGetOutcome where
  | sendErr
  | badStatus (code : Nat)
  | bytesErr
  | ok (bytes : ByteSeq)

/-- Outcome of the remote DELETE performed by `delete_file` for Supabase
files; a non-success status carries the error text of the response body
(after the `unwrap_or` fallback to `Unknown error`). -/
inductive HttpDeleteOutcome where
  | sendErr
  | badStatus (errText : String)
  | ok

/-- Outcome of the signed-URL POST performed by `get_download_url` for
Supabase files; on a success status the JSON body either parses to the
signed URL suffix or fails to parse. -/
inductive SignOutcome where
  | sendErr
  | badStatus
  | parsed (result : Except Unit String)

/-- Outcome oracles for the effectful primitives used by the storage
service: local file reads (`None` models an I/O error), local file
removals (`false` models an I/O error), and the three remote HTTP calls. -/
structure Ops where
  fsRead : String → Option ByteSeq
  fsRemove : String → Bool
  httpGet : String → HttpGetOutcome
  httpDelete : String → HttpDeleteOutcome
  httpSignPost : String → SignOutcome

/-- Translation of `StorageService::get_file` (storage.rs): dispatches on
the stored file's `storage_type`; `Temporary` reads the recorded local
path, `Supabase` issues a GET against the recorded download URL.  Errors
are the outermost `anyhow` context strings.  The second component is the
trace of backend actions performed. -/
def StorageService.get_file (ops : Ops) (cfg : StorageConfig)
    (stored_file : StoredFile) : Except String ByteSeq × List Action :=
  match stored_file.storage_type with
  | .Temporary =>
    (match ops.fsRead stored_file.storage_path with
     | some bytes => .ok bytes
     | none => .error "Failed to read file from temporary storage",
     [.fsRead stored_file.storage_path])
  | .Supabase =>
    match stored_file.download_url with
    | some download_url =>
      (match ops.httpGet download_url with
       | .sendErr => .error "Failed to download file from Supabase"
       | .badStatus code =>
         .error ("Failed to download file: HTTP " ++ toString code)
       | .bytesErr => .error "Failed to read file bytes from Supabase"
       | .ok bytes => .ok bytes,
       [.httpGet download_url])
    | none => (.error "No download URL available for Supabase file", [])

/-- Translation of `StorageService::delete_file` (storage.rs): dispatches
on the stored file's `storage_type`; `Temporary` removes the recorded
local path, `Supabase` issues an authenticated DELETE against the object
key built from the configured URL and bucket. -/
def StorageService.delete_file (ops : Ops) (cfg : StorageConfig)
    (stored_file : StoredFile) : Except String Unit × List Action :=
  match stored_file.storage_type with
  | .Temporary =>
    (if ops.fsRemove stored_file.storage_path then .ok ()
     else .error "Failed to delete file from temporary storage",
     [.fsRemove stored_file.storage_path])
  | .Supabase =>
    match cfg.supabase_url with
    | none => (.error "Supabase URL not configured", [])
    | some supabase_url =>
      match cfg.supabase_key with
      | none => (.error "Supabase key not configured", [])
      | some _supabase_key =>
        match cfg.supabase_bucket with
        | none => (.error "Supabase bucket not configured", [])
        | some bucket =>
          let delete_url := supabase_url ++ "/storage/v1/object/" ++ bucket
            ++ "/" ++ stored_file.storage_path
          (match ops.httpDelete delete_url with
           | .sendErr => .error "Failed to delete file from Supabase"
           | .badStatus errText =>
             .error ("Supabase delete failed: " ++ errText)
           | .ok => .ok (),
           [.httpDelete delete_url])

/-- Translation of `StorageService::get_download_url` (storage.rs):
`Temporary` files get the stable internal API path built from the file id;
`Supabase` files get a signed URL from the remote service, falling back to
the recorded (or reconstructed) public URL when the signing request
returns a non-success status. -/
def StorageService.get_download_url (ops : Ops) (cfg : StorageConfig)
    (stored_file : StoredFile) (expires_in : Nat) :
    Except String String × List Action :=
  match stored_file.storage_type with
  | .Temporary =>
    (.ok ("/api/files/" ++ stored_file.id ++ "/download"), [])
  | .Supabase =>
    match cfg.supabase_url with
    | none => (.error "Supabase URL not configured", [])
    | some supabase_url =>
      match cfg.supabase_key with
      | none => (.error "Supabase key not configured", [])
      | some _supabase_key =>
        match cfg.supabase_bucket with
        | none => (.error "Supabase bucket not configured", [])
        | some bucket =>
          let signed_url_endpoint := supabase_url ++ "/storage/v1/object/sign/"
            ++ bucket ++ "/" ++ stored_file.storage_path ++ "?expiresIn="
            ++ toString expires_in
          (match ops.httpSignPost signed_url_endpoint with
           | .sendErr => .error "Failed to create signed URL"
           | .badStatus =>
             .ok (stored_file.download_url.getD
               (supabase_url ++ "/storage/v1/object/public/" ++ bucket ++ "/"
                 ++ stored_file.storage_path))
           | .parsed (.error _) => .error "Failed to parse signed URL response"
           | .parsed (.ok signed_url) => .ok (supabase_url ++ signed_url),
           [.httpSignPost signed_url_endpoint])

/-- An entry of the configured temporary directory, as the sweeper sees
it: its path and its last-modified time in seconds since the epoch
(`none` models a failing `metadata.modified()` call, which the sweeper
skips). -/
structure DirEntry where
  path : String
  mtime : Option Int
deriving DecidableEq, Repr

/-- Whether the sweeper considers a directory entry expired: its modified
time is known and strictly earlier than the cutoff `now - max_age_hours`
(in seconds). -/
def entryExpired (now : Int) (max_age_hours : Nat) (e : DirEntry) : Bool :=
  match e.mtime with
  | some t => decide (t < now - 3600 * (max_age_hours : Int))
  | none => false

/-- Translation of `StorageService::cleanup_expired_temp_files`
(storage.rs): a no-op returning 0 unless the configured backend is
`Temporary`; otherwise walks the configured temporary directory and
removes every entry whose modified time is strictly older than
`now - max_age_hours`.  The directory contents are passed explicitly, and
`tokio::fs::remove_file` on a listed entry is modelled as succeeding; the
result pairs the deleted count with the remaining directory contents. -/
def StorageService.cleanup_expired_temp_files (cfg : StorageConfig)
    (dir : List DirEntry) (now : Int) (max_age_hours : Nat) :
    Except String (Nat × List DirEntry) :=
  if cfg.storage_type ≠ .Temporary then .ok (0, dir)
  else
    match cfg.temp_dir with
    | none => .error "Temporary directory not configured"
    | some _ =>
      .ok ((dir.filter (entryExpired now max_age_hours)).length,
        dir.filter fun e => !(entryExpired now max_age_hours e))

/-- The in-memory file registry (handlers.rs): a map from file id to
`StoredFile`, modelled as an association list with `HashMap` semantics. -/
abbrev Registry := List (Uuid × StoredFile)

/-- Model of `HashMap::get`: the value bound to a key, if any. -/
def Registry.get (r : Registry) (k : Uuid) : Option StoredFile :=
  (r.find? fun p => p.1 == k).map fun p => p.2

/-- Model of `HashMap::insert`: binds `k` to `v`, replacing any previous
binding of `k`. -/
def Registry.insertEntry (r : Registry) (k : Uuid) (v : StoredFile) : Registry :=
  (k, v) :: r.filter fun p => p.1 != k

/-- Model of `HashMap::remove`: drops the binding of `k`, if any. -/
def Registry.erase (r : Registry) (k : Uuid) : Registry :=
  r.filter fun p => p.1 != k

/-- The registry mutation performed by the upload handler (handlers.rs,
`upload_file`): `file_registry.insert(stored_file.id, stored_file)`. -/
def uploadRegister (r : Registry) (stored_file : StoredFile) : Registry :=
  r.insertEntry stored_file.id stored_file

/-- The key of every registry entry equals the id of the stored file it
maps to. -/
def RegWF (r : Registry) : Prop :=
  ∀ p ∈ r, p.1 = p.2.id

/-- Translation of the handler `delete_file` (handlers.rs): look the id up
in the registry (404 when absent), invoke the storage backend's delete for
the found `StoredFile`, and remove the registry entry only when the
backend delete succeeded.  Returns the handler result, the registry after
the operation, and the trace of backend actions. -/
def handlersDeleteFile (ops : Ops) (cfg : StorageConfig) (reg : Registry)
    (file_id : Uuid) : Except AppError String × Registry × List Action :=
  match reg.get file_id with
  | none => (.error (.NotFoundError "File not found"), reg, [])
  | some stored_file =>
    match StorageService.delete_file ops cfg stored_file with
    | (.error e, tr) => (.error (.StorageError e), reg, tr)
    | (.ok _, tr) =>
      (.ok ("File " ++ file_id ++ " deleted"), reg.erase file_id, tr)

/-- Translation of `struct User` (models.rs). -/
structure User where
  id : Uuid
  email : String
  password_hash : String
  created_at : String
  updated_at : String
  is_active : Bool
deriving DecidableEq, Repr

/-- Translation of `struct UserResponse` (models.rs): the public-safe
projection of a user (no password hash). -/
structure UserResponse where
  id : Uuid
  email : String
  created_at : String
  is_active : Bool
deriving DecidableEq, Repr

/-- Translation of `impl From<User> for UserResponse` (models.rs). -/
def UserResponse.ofUser (user : User) : UserResponse :=
  { id := user.id, email := user.email, created_at := user.created_at,
    is_active := user.is_active }

/-- The in-memory user store of `AuthService` (auth.rs): a map from email
to `User`, modelled as an association list with `DashMap` semantics. -/
abbrev UserStore := List (String × User)

/-- Model of `DashMap::contains_key`. -/
def UserStore.containsKey (users : UserStore) (email : String) : Bool :=
  users.any fun p => p.1 == email

/-- Model of `DashMap::get`. -/
def UserStore.get (users : UserStore) (email : String) : Option User :=
  (users.find? fun p => p.1 == email).map fun p => p.2

/-- Model of `DashMap::insert`. -/
def UserStore.insertEntry (users : UserStore) (email : String) (u : User) :
    UserStore :=
  (email, u) :: users.filter fun p => p.1 != email

/-- Outcome oracle for `bcrypt::verify`: `.error` models a malformed-hash
failure, `.ok b` the boolean verification result. -/
abbrev VerifyOracle := String → String → Except String Bool

/-- Translation of `struct Claims` (models.rs), with the `usize` Unix
timestamps modelled as integers in seconds. -/
structure Claims where
  sub : String
  email : String
  exp : Int
  iat : Int
deriving DecidableEq, Repr

/-- Model of an encoded JWT: the claims payload together with the secret
it was signed with (an HMAC signature is valid exactly when the verifying
secret equals the signing secret). -/
structure Token where
  claims : Claims
  secret : String
deriving DecidableEq, Repr

/-- Translation of `struct AuthService` (auth.rs), minus the user store,
which is passed explicitly to each operation. -/
structure AuthService where
  jwt_secret : String
  jwt_expiration_hours : Int
deriving DecidableEq, Repr

/-- Translation of `AuthService::new` (auth.rs): expiration is fixed at 24
hours; the secret comes from the environment. -/
def AuthService.new (jwt_secret : String) : AuthService :=
  { jwt_secret := jwt_secret, jwt_expiration_hours := 24 }

/-- Translation of `AuthService::register_user` (auth.rs): rejects (with
`ValidationError "User already exists"`) when the email is already a key
of the store, otherwise hashes the password (outcome supplied by the
`hashOutcome` oracle; a fresh id and the current timestamp are also
supplied) and inserts the new user under the email.  Returns the result
and the store after the operation. -/
def AuthService.register_user (users : UserStore) (email password : String)
    (hashOutcome : String → Except String String) (new_id : Uuid)
    (now : String) : Except AppError UserResponse × UserStore :=
  if users.containsKey email then
    (.error (.ValidationError "User already exists"), users)
  else
    match hashOutcome password with
    | .error e =>
      (.error (.InternalError ("Failed to hash password: " ++ e)), users)
    | .ok password_hash =>
      let user : User :=
        { id := new_id, email := email, password_hash := password_hash,
          created_at := now, updated_at := now, is_active := true }
      (.ok (UserResponse.ofUser user), users.insertEntry email user)

/-- Translation of `AuthService::authenticate_user` (auth.rs): unknown
email and failed password verification both yield
`AuthError "Invalid credentials"`; an inactive account yields
`AuthError "Account is inactive"`. -/
def AuthService.authenticate_user (users : UserStore)
    (verify : VerifyOracle) (email password : String) :
    Except AppError UserResponse :=
  match users.get email with
  | none => .error (.AuthError "Invalid credentials")
  | some user =>
    match verify password user.password_hash with
    | .error e =>
      .error (.InternalError ("Failed to verify password: " ++ e))
    | .ok password_valid =>
      if !password_valid then .error (.AuthError "Invalid credentials")
      else if !user.is_active then .error (.AuthError "Account is inactive")
      else .ok (UserResponse.ofUser user)

/-- Translation of `AuthService::generate_token` (auth.rs): claims carry
the user id as subject, the email, the issue time and an expiry
`jwt_expiration_hours` after it; the token is signed with the service's
secret.  Returns the token and the expiry timestamp. -/
def AuthService.generate_token (svc : AuthService) (user : UserResponse)
    (now : Int) : Token × Int :=
  let expiration := now + svc.jwt_expiration_hours * 3600
  let claims : Claims :=
    { sub := user.id, email := user.email, exp := expiration, iat := now }
  ({ claims := claims, secret := svc.jwt_secret }, expiration)

/-- Translation of `AuthService::validate_token` (auth.rs): decodes with
`jsonwebtoken`'s `Validation::new(HS256)`, whose default leeway is 60
seconds — the signature must verify under the service's secret and the
token is rejected as expired exactly when `exp < now - 60`. -/
def AuthService.validate_token (svc : AuthService) (token : Token)
    (now : Int) : Except AppError Claims :=
  if token.secret ≠ svc.jwt_secret then
    .error (.AuthError "Invalid token: InvalidSignature")
  else if token.claims.exp < now - 60 then
    .error (.AuthError "Invalid token: ExpiredSignature")
  else .ok token.claims

/-- Translation of `AuthService::get_user_by_id` (auth.rs): parses the id
string as a UUID (rejecting with `ValidationError "Invalid user ID"` when
it does not parse), then scans the store for a user with that id,
answering `NotFoundError "User not found"` when none matches. -/
def AuthService.get_user_by_id (users : UserStore) (user_id : String) :
    Except AppError UserResponse :=
  match Uuid.parse_str user_id with
  | none => .error (.ValidationError "Invalid user ID")
  | some uuid =>
    match users.find? fun p => p.2.id == uuid with
    | some p => .ok (UserResponse.ofUser p.2)
    | none => .error (.NotFoundError "User not found")

/-- A sample oracle assignment on which every backend primitive succeeds. -/
def okOps : Ops :=
  { fsRead := fun _ => some [104, 105], fsRemove := fun _ => true,
    httpGet := fun _ => .ok [104, 105], httpDelete := fun _ => .ok,
    httpSignPost := fun _ => .parsed (.ok "/signed/abc") }

/-- A sample oracle assignment on which every backend primitive fails. -/
def failOps : Ops :=
  { fsRead := fun _ => none, fsRemove := fun _ => false,
    httpGet := fun _ => .sendErr, httpDelete := fun _ => .sendErr,
    httpSignPost := fun _ => .sendErr }

/-- A sample stored file living on the local (`Temporary`) backend. -/
def sampleTempFile : StoredFile :=
  { id := "550e8400-e29b-41d4-a716-446655440000", filename := "a.txt",
    file_size := 2, content_type := some "text/plain",
    storage_path := "/tmp/quickscan_uploads/550e8400_a.txt",
    storage_type := .Temporary, timestamp := "2024-01-01T00:00:00+00:00",
    download_url := none }

/-- A sample stored file living on the remote (`Supabase`) backend. -/
def sampleSupaFile : StoredFile :=
  { id := "6fa459ea-ee8a-3ca4-894e-db77e160355e", filename := "b.txt",
    file_size := 2, content_type := some "text/plain",
    storage_path := "6fa459ea-ee8a-3ca4-894e-db77e160355e/b.txt",
    storage_type := .Supabase, timestamp := "2024-01-01T00:00:00+00:00",
    download_url := some "https://sb.example/storage/v1/object/public/uploads/6fa459ea-ee8a-3ca4-894e-db77e160355e/b.txt" }

/-- A sample storage configuration selecting the local backend. -/
def sampleTempCfg : StorageConfig :=
  { storage_type := .Temporary, temp_dir := some "/tmp/quickscan_uploads",
    supabase_url := none, supabase_key := none,
    supabase_bucket := some "uploads" }

/-- A sample storage configuration selecting the remote backend. -/
def sampleSupaCfg : StorageConfig :=
  { storage_type := .Supabase, temp_dir := some "/tmp/quickscan_uploads",
    supabase_url := some "https://sb.example", supabase_key := some "anon",
    supabase_bucket := some "uploads" }

/-- A sample registered user. -/
def sampleUser : User :=
  { id := "123e4567-e89b-12d3-a456-426614174000", email := "a@example.com",
    password_hash := "bcrypt:pw1", created_at := "2024-01-01T00:00:00+00:00",
    updated_at := "2024-01-01T00:00:00+00:00", is_active := true }

/-- A sample temporary-directory listing: one stale file, one fresh file,
one file with an unreadable modification time. -/
def sampleDir : List DirEntry :=
  [⟨"/tmp/quickscan_uploads/old.txt", some 1000⟩,
   ⟨"/tmp/quickscan_uploads/new.txt", some 99000⟩,
   ⟨"/tmp/quickscan_uploads/odd.txt", none⟩]

/-- A sample verification oracle: a password verifies against exactly the
hash obtained by prefixing it with `bcrypt:`. -/
def sampleVerify : VerifyOracle :=
  fun password h => .ok (("bcrypt:" ++ password) == h)

/-- A sample hashing oracle matching `sampleVerify`. -/
def sampleHash (password : String) : Except String String :=
  .ok ("bcrypt:" ++ password)

/-- The public projection of `sampleUser`. -/
def sampleUserResp : UserResponse := UserResponse.ofUser sampleUser

/-- Claim C3: false as stated.  The sanitizer keeps `'.'` (it is in the
allowed set), so `"../../../etc/passwd"` maps to `".._.._.._etc_passwd"`,
not to the claimed `"______etc_passwd"` (which is also what the repo's own
unit test expects — that assertion does not match the function).  The
claimed per-character rule also fails beyond ASCII: Rust's
`char::is_alphanumeric` keeps Unicode alphanumerics such as `'é'`, which
lie outside `[A-Za-z0-9._-]`. -/
theorem C3_counterexample :
    sanitize_filename "../../../etc/passwd" = ".._.._.._etc_passwd" ∧
    ".._.._.._etc_passwd" ≠ "______etc_passwd" ∧
    sanitize_filename "café.txt" = "café.txt" ∧
    spec_sanitize_filename "café.txt" = "caf_.txt" ∧
    "café.txt" ≠ "caf_.txt" := by
  refine ⟨by decide, by decide, by decide, by decide, by decide⟩

/-- Claim C3 (amended): on ASCII filenames the sanitizer agrees exactly
with the specification's rule (each character outside `[A-Za-z0-9._-]`
becomes `'_'`, the rest are unchanged); consequently
`"test file.txt"` becomes `"test_file.txt"` and
`"normal-file_name.jpg"` is unchanged, but `"../../../etc/passwd"`
becomes `".._.._.._etc_passwd"` (dots are kept, contrary to the claimed
example), and non-ASCII Unicode alphanumerics are kept rather than
replaced. -/
theorem C3_sanitize_amended :
    sanitize_filename "test file.txt" = "test_file.txt" ∧
    sanitize_filename "normal-file_name.jpg" = "normal-file_name.jpg" ∧
    sanitize_filename "../../../etc/passwd" = ".._.._.._etc_passwd" ∧
    ∀ s : String, allAscii s = true →
      sanitize_filename s = spec_sanitize_filename s := by
  refine ⟨by decide, by decide, by decide, ?_⟩
  intro s hs
  unfold sanitize_filename spec_sanitize_filename
  congr 1
  apply List.map_congr_left
  intro c hc
  have hlt : c.toNat < 128 := by
    have h := (List.all_eq_true.mp hs) c hc
    exact of_decide_eq_true h
  have halnum : rustIsAlphanumeric c =
      decide ((65 ≤ c.toNat ∧ c.toNat ≤ 90) ∨ (97 ≤ c.toNat ∧ c.toNat ≤ 122)
        ∨ (48 ≤ c.toNat ∧ c.toNat ≤ 57)) := by
    unfold rustIsAlphanumeric
    exact decide_eq_decide.mpr (by omega)
  unfold specAllowedChar
  rw [halnum]

/-- Witness for the amended claim C3 at a concrete ASCII filename. -/
theorem C3_sanitize_amended_witness :
    allAscii "my doc (1).pdf" = true ∧
    sanitize_filename "my doc (1).pdf" = spec_sanitize_filename "my doc (1).pdf" :=
  ⟨by decide, C3_sanitize_amended.2.2.2 "my doc (1).pdf" (by decide)⟩

/-- Claim C10: every registry entry's key equals the id of the stored file
it maps to — true of the initially empty registry, preserved by the upload
handler's insertion (which inserts under the stored file's own id) and by
the delete handler (which either leaves the registry unchanged or removes
an entry). -/
theorem C10_registry_key_invariant :
    RegWF ([] : Registry) ∧
    (∀ (r : Registry) (f : StoredFile), RegWF r → RegWF (uploadRegister r f)) ∧
    (∀ (ops : Ops) (cfg : StorageConfig) (r : Registry) (file_id : Uuid),
      RegWF r → RegWF (handlersDeleteFile ops cfg r file_id).2.1) := by
  refine ⟨?_, ?_, ?_⟩
  · intro p hp
    cases hp
  · intro r f h p hp
    rcases List.mem_cons.mp hp with h1 | h2
    · subst h1; rfl
    · exact h p (List.mem_of_mem_filter h2)
  · intro ops cfg r file_id h
    unfold handlersDeleteFile
    cases hg : Registry.get r file_id with
    | none => exact h
    | some f =>
      dsimp only
      cases hd : StorageService.delete_file ops cfg f with
      | mk res tr =>
        cases res with
        | error e => exact h
        | ok u =>
          intro p hp
          exact h p (List.mem_of_mem_filter hp)

/-- Witness for claim C10 at a concrete registry, upload and delete. -/
theorem C10_registry_key_invariant_witness :
    RegWF (uploadRegister [] sampleTempFile) ∧
    RegWF (handlersDeleteFile okOps sampleTempCfg
      [(sampleTempFile.id, sampleTempFile)] sampleTempFile.id).2.1 :=
  ⟨C10_registry_key_invariant.2.1 [] sampleTempFile
      C10_registry_key_invariant.1,
    C10_registry_key_invariant.2.2 okOps sampleTempCfg
      [(sampleTempFile.id, sampleTempFile)] sampleTempFile.id
      (by intro p hp; simp only [List.mem_singleton] at hp; subst hp; rfl)⟩

/-- Claim C1: when a file id is present in the registry, the delete
handler performs exactly the backend delete actions for that file's
`StoredFile`; when the backend delete succeeds the registry entry is
removed, and when it fails the handler fails with a storage error and the
registry is unchanged. -/
theorem C1_delete_orchestration :
    ∀ (ops : Ops) (cfg : StorageConfig) (reg : Registry) (file_id : Uuid)
      (f : StoredFile), Registry.get reg file_id = some f →
      (handlersDeleteFile ops cfg reg file_id).2.2 =
        (StorageService.delete_file ops cfg f).2 ∧
      (∀ u, (StorageService.delete_file ops cfg f).1 = .ok u →
        (handlersDeleteFile ops cfg reg file_id).1 =
          .ok ("File " ++ file_id ++ " deleted") ∧
        (handlersDeleteFile ops cfg reg file_id).2.1 = reg.erase file_id) ∧
      (∀ e, (StorageService.delete_file ops cfg f).1 = .error e →
        (handlersDeleteFile ops cfg reg file_id).1 =
          .error (.StorageError e) ∧
        (handlersDeleteFile ops cfg reg file_id).2.1 = reg) := by
  intro ops cfg reg file_id f hg
  unfold handlersDeleteFile
  rw [hg]
  dsimp only
  cases hd : StorageService.delete_file ops cfg f with
  | mk res tr =>
    cases res with
    | error e =>
      refine ⟨rfl, ?_, ?_⟩
      · intro u hu; cases hu
      · intro e' he'
        cases he'
        exact ⟨rfl, rfl⟩
    | ok u =>
      refine ⟨rfl, ?_, ?_⟩
      · intro u' hu'
        exact ⟨rfl, rfl⟩
      · intro e' he'; cases he'

/-- Witness for claim C1: a registry holding one local file, deleted with
a succeeding backend. -/
theorem C1_delete_orchestration_witness :
    (handlersDeleteFile okOps sampleTempCfg
        [(sampleTempFile.id, sampleTempFile)] sampleTempFile.id).1 =
      .ok ("File " ++ sampleTempFile.id ++ " deleted") ∧
    (handlersDeleteFile okOps sampleTempCfg
        [(sampleTempFile.id, sampleTempFile)] sampleTempFile.id).2.1 =
      Registry.erase [(sampleTempFile.id, sampleTempFile)] sampleTempFile.id :=
  (C1_delete_orchestration okOps sampleTempCfg
      [(sampleTempFile.id, sampleTempFile)] sampleTempFile.id sampleTempFile
      rfl).2.1 () rfl

/-- Claim C2: retrieve, delete and getDownloadUrl dispatch on the stored
file's recorded backend tag, never on the ambient configuration — a
`Temporary` file is handled exclusively through local-filesystem actions
and a `Supabase` file exclusively through remote HTTP actions, for every
configuration, and replacing the configured storage type changes nothing
about any of the three operations. -/
theorem C2_dispatch_by_tag :
    ∀ (ops : Ops) (cfg : StorageConfig) (f : StoredFile) (expires_in : Nat),
      (f.storage_type = .Temporary →
        localOnly (StorageService.get_file ops cfg f).2 ∧
        localOnly (StorageService.delete_file ops cfg f).2 ∧
        localOnly (StorageService.get_download_url ops cfg f expires_in).2) ∧
      (f.storage_type = .Supabase →
        remoteOnly (StorageService.get_file ops cfg f).2 ∧
        remoteOnly (StorageService.delete_file ops cfg f).2 ∧
        remoteOnly (StorageService.get_download_url ops cfg f expires_in).2) ∧
      (∀ t : StorageType,
        StorageService.get_file ops { cfg with storage_type := t } f =
          StorageService.get_file ops cfg f ∧
        StorageService.delete_file ops { cfg with storage_type := t } f =
          StorageService.delete_file ops cfg f ∧
        StorageService.get_download_url ops { cfg with storage_type := t } f
            expires_in =
          StorageService.get_download_url ops cfg f expires_in) := by
  intro ops cfg f expires_in
  refine ⟨?_, ?_, ?_⟩
  · intro h
    refine ⟨?_, ?_, ?_⟩
    · simp [StorageService.get_file, h, localOnly, Action.isLocal]
    · simp [StorageService.delete_file, h, localOnly, Action.isLocal]
    · simp [StorageService.get_download_url, h, localOnly]
  · intro h
    refine ⟨?_, ?_, ?_⟩
    · simp only [StorageService.get_file, h]
      cases f.download_url with
      | none => simp [remoteOnly]
      | some url => simp [remoteOnly, Action.isRemote]
    · simp only [StorageService.delete_file, h]
      cases cfg.supabase_url with
      | none => simp [remoteOnly]
      | some url =>
        cases cfg.supabase_key with
        | none => simp [remoteOnly]
        | some key =>
          cases cfg.supabase_bucket with
          | none => simp [remoteOnly]
          | some bucket => simp [remoteOnly, Action.isRemote]
    · simp only [StorageService.get_download_url, h]
      cases cfg.supabase_url with
      | none => simp [remoteOnly]
      | some url =>
        cases cfg.supabase_key with
        | none => simp [remoteOnly]
        | some key =>
          cases cfg.supabase_bucket with
          | none => simp [remoteOnly]
          | some bucket => simp [remoteOnly, Action.isRemote]
  · intro t
    exact ⟨rfl, rfl, rfl⟩

/-- Witness for claim C2: a local file against the remote configuration,
a remote file against the local configuration, and a flipped ambient
storage type. -/
theorem C2_dispatch_by_tag_witness :
    localOnly (StorageService.get_file okOps sampleSupaCfg sampleTempFile).2 ∧
    remoteOnly (StorageService.delete_file okOps sampleTempCfg
      sampleSupaFile).2 ∧
    StorageService.get_download_url okOps
        { sampleSupaCfg with storage_type := .Temporary } sampleSupaFile 3600 =
      StorageService.get_download_url okOps sampleSupaCfg sampleSupaFile 3600 :=
  ⟨((C2_dispatch_by_tag okOps sampleSupaCfg sampleTempFile 3600).1 rfl).1,
   ((C2_dispatch_by_tag okOps sampleTempCfg sampleSupaFile 3600).2.1 rfl).2.1,
   ((C2_dispatch_by_tag okOps sampleSupaCfg sampleSupaFile 3600).2.2
     .Temporary).2.2⟩

/-- Claim C9: for a `Temporary` file, getDownloadUrl answers the stable
internal API path determined only by the file id, and the requested expiry
has no effect on the result. -/
theorem C9_local_download_url :
    ∀ (ops : Ops) (cfg : StorageConfig) (f : StoredFile) (e1 e2 : Nat),
      f.storage_type = .Temporary →
      (StorageService.get_download_url ops cfg f e1).1 =
        .ok ("/api/files/" ++ f.id ++ "/download") ∧
      StorageService.get_download_url ops cfg f e1 =
        StorageService.get_download_url ops cfg f e2 := by
  intro ops cfg f e1 e2 h
  constructor
  · simp [StorageService.get_download_url, h]
  · simp [StorageService.get_download_url, h]

/-- Witness for claim C9 at a concrete local file and two expiries. -/
theorem C9_local_download_url_witness :
    (StorageService.get_download_url okOps sampleTempCfg sampleTempFile
        3600).1 =
      .ok ("/api/files/" ++ sampleTempFile.id ++ "/download") ∧
    StorageService.get_download_url okOps sampleTempCfg sampleTempFile 3600 =
      StorageService.get_download_url okOps sampleTempCfg sampleTempFile 7200 :=
  C9_local_download_url okOps sampleTempCfg sampleTempFile 3600 7200 rfl

/-- Claim C7: against a non-local backend the sweep returns 0 and leaves
the directory untouched; against the local backend (with a configured
temporary directory) it deletes exactly the entries whose known modified
time is strictly older than `now - maxAgeHours` and returns their exact
count. -/
theorem C7_sweep :
    ∀ (cfg : StorageConfig) (dir : List DirEntry) (now : Int) (h : Nat),
      (cfg.storage_type ≠ .Temporary →
        StorageService.cleanup_expired_temp_files cfg dir now h =
          .ok (0, dir)) ∧
      (cfg.storage_type = .Temporary → cfg.temp_dir.isSome = true →
        StorageService.cleanup_expired_temp_files cfg dir now h =
          .ok ((dir.filter (entryExpired now h)).length,
            dir.filter fun e => !(entryExpired now h e)) ∧
        ∀ e ∈ dir, (entryExpired now h e = true ↔
          ∃ t, e.mtime = some t ∧ t < now - 3600 * (h : Int))) := by
  intro cfg dir now h
  constructor
  · intro hne
    unfold StorageService.cleanup_expired_temp_files
    rw [if_pos hne]
  · intro heq hsome
    obtain ⟨d, hd⟩ := Option.isSome_iff_exists.mp hsome
    constructor
    · unfold StorageService.cleanup_expired_temp_files
      rw [if_neg (by simp [heq]), hd]
    · intro e _
      unfold entryExpired
      cases e.mtime with
      | none => simp
      | some t => simp

/-- Witness for claim C7: the sample directory swept under the remote and
under the local configuration. -/
theorem C7_sweep_witness :
    StorageService.cleanup_expired_temp_files sampleSupaCfg sampleDir
        100000 24 = .ok (0, sampleDir) ∧
    StorageService.cleanup_expired_temp_files sampleTempCfg sampleDir
        100000 24 =
      .ok ((sampleDir.filter (entryExpired 100000 24)).length,
        sampleDir.filter fun e => !(entryExpired 100000 24 e)) :=
  ⟨(C7_sweep sampleSupaCfg sampleDir 100000 24).1 (by decide),
   ((C7_sweep sampleTempCfg sampleDir 100000 24).2 rfl rfl).1⟩

/-- Claim C6: registering an email that is already a key of the user
store fails — the code realises the AlreadyExists class as
`ValidationError "User already exists"` — and leaves the store
unchanged.  The lookup is exact string equality, hence case-sensitive. -/
theorem C6_duplicate_register :
    ∀ (users : UserStore) (email password : String)
      (hashOutcome : String → Except String String) (new_id : Uuid)
      (now : String), users.containsKey email = true →
      AuthService.register_user users email password hashOutcome new_id now =
        (.error (.ValidationError "User already exists"), users) := by
  intro users email password hashOutcome new_id now h
  unfold AuthService.register_user
  rw [if_pos h]

/-- Witness for claim C6: the sample user's email registered a second
time. -/
theorem C6_duplicate_register_witness :
    UserStore.containsKey [("a@example.com", sampleUser)] "a@example.com" =
      true ∧
    AuthService.register_user [("a@example.com", sampleUser)] "a@example.com"
        "pw2" sampleHash "ffffffff-ffff-ffff-ffff-ffffffffffff"
        "2024-01-02T00:00:00+00:00" =
      (.error (.ValidationError "User already exists"),
        [("a@example.com", sampleUser)]) :=
  ⟨by decide, C6_duplicate_register [("a@example.com", sampleUser)]
    "a@example.com" "pw2" sampleHash "ffffffff-ffff-ffff-ffff-ffffffffffff"
    "2024-01-02T00:00:00+00:00" (by decide)⟩

/-- Claim C5: a login with a never-registered email and a login with a
registered email but a wrong password (one the stored hash does not
verify) fail with the identical `AuthError "Invalid credentials"`
failure, revealing nothing about whether the email exists. -/
theorem C5_login_indistinguishable :
    ∀ (users : UserStore) (verify : VerifyOracle) (e1 p1 e2 p2 : String)
      (u : User),
      users.get e1 = none →
      users.get e2 = some u →
      verify p2 u.password_hash = .ok false →
      AuthService.authenticate_user users verify e1 p1 =
        .error (.AuthError "Invalid credentials") ∧
      AuthService.authenticate_user users verify e2 p2 =
        .error (.AuthError "Invalid credentials") := by
  intro users verify e1 p1 e2 p2 u h1 h2 hv
  constructor
  · unfold AuthService.authenticate_user
    rw [h1]
  · unfold AuthService.authenticate_user
    rw [h2]
    dsimp only
    rw [hv]
    rfl

/-- Witness for claim C5: an unknown email and a wrong password against
the sample store produce the same failure. -/
theorem C5_login_indistinguishable_witness :
    AuthService.authenticate_user [("a@example.com", sampleUser)]
        sampleVerify "b@example.com" "pw1" =
      .error (.AuthError "Invalid credentials") ∧
    AuthService.authenticate_user [("a@example.com", sampleUser)]
        sampleVerify "a@example.com" "wrong" =
      .error (.AuthError "Invalid credentials") :=
  C5_login_indistinguishable [("a@example.com", sampleUser)] sampleVerify
    "b@example.com" "pw1" "a@example.com" "wrong" sampleUser rfl rfl rfl

/-- Claim C4: false as stated.  `validate_token` decodes with
`jsonwebtoken`'s default validation, which applies a 60-second leeway to
the expiry check, so a token whose expiry has just passed still validates:
a token issued at time 0 expires at 86400, yet validation at 86430
succeeds. -/
theorem C4_counterexample :
    ((AuthService.new "secret").generate_token sampleUserResp 0).2 = 86400 ∧
    (86400 : Int) < 86430 ∧
    (AuthService.new "secret").validate_token
        ((AuthService.new "secret").generate_token sampleUserResp 0).1 86430 =
      .ok ((AuthService.new "secret").generate_token sampleUserResp 0).1.claims :=
  ⟨rfl, by decide, rfl⟩

/-- Claim C4 (amended): a token issued by `generate_token` validates
successfully immediately after issuance and the returned claims' subject
equals the user's id; the token keeps validating while the current time is
at most its expiry plus the 60-second default leeway, and fails validation
with an InvalidToken-class (`AuthError`) failure as soon as the current
time exceeds expiry plus that leeway. -/
theorem C4_token_roundtrip_amended :
    ∀ (secret : String) (user : UserResponse) (now later : Int),
      (AuthService.new secret).validate_token
          ((AuthService.new secret).generate_token user now).1 now =
        .ok ((AuthService.new secret).generate_token user now).1.claims ∧
      ((AuthService.new secret).generate_token user now).1.claims.sub =
        user.id ∧
      ((AuthService.new secret).generate_token user now).2 = now + 86400 ∧
      (((AuthService.new secret).generate_token user now).2 + 60 < later →
        (AuthService.new secret).validate_token
            ((AuthService.new secret).generate_token user now).1 later =
          .error (.AuthError "Invalid token: ExpiredSignature")) ∧
      (later ≤ ((AuthService.new secret).generate_token user now).2 + 60 →
        (AuthService.new secret).validate_token
            ((AuthService.new secret).generate_token user now).1 later =
          .ok ((AuthService.new secret).generate_token user now).1.claims) := by
  intro secret user now later
  have hg : (AuthService.new secret).generate_token user now =
      (⟨⟨user.id, user.email, now + 86400, now⟩, secret⟩, now + 86400) := by
    unfold AuthService.generate_token AuthService.new
    norm_num
  rw [hg]
  refine ⟨?_, rfl, rfl, ?_, ?_⟩
  · unfold AuthService.validate_token
    rw [if_neg (by simp [AuthService.new]), if_neg (by dsimp only; omega)]
  · intro hlt
    dsimp only at hlt
    unfold AuthService.validate_token
    rw [if_neg (by simp [AuthService.new]), if_pos (by dsimp only; omega)]
  · intro hle
    dsimp only at hle
    unfold AuthService.validate_token
    rw [if_neg (by simp [AuthService.new]), if_neg (by dsimp only; omega)]

/-- Witness for the amended claim C4: a token issued at time 1000 with a
24-hour lifetime, validated just inside and just outside the leeway
window. -/
theorem C4_token_roundtrip_amended_witness :
    (AuthService.new "s").validate_token
        ((AuthService.new "s").generate_token sampleUserResp 1000).1 90000 =
      .error (.AuthError "Invalid token: ExpiredSignature") ∧
    (AuthService.new "s").validate_token
        ((AuthService.new "s").generate_token sampleUserResp 1000).1 87460 =
      .ok ((AuthService.new "s").generate_token sampleUserResp 1000).1.claims :=
  ⟨(C4_token_roundtrip_amended "s" sampleUserResp 1000 90000).2.2.2.1
      (by decide),
   (C4_token_roundtrip_amended "s" sampleUserResp 1000 87460).2.2.2.2
      (by decide)⟩

/-- Claim C8: false as stated.  An id string that is not a valid UUID
matches no stored user, yet the lookup fails with
`ValidationError "Invalid user ID"` (HTTP 400) rather than a
NotFound-class error. -/
theorem C8_counterexample :
    AuthService.get_user_by_id [("a@example.com", sampleUser)] "zzz" =
      .error (.ValidationError "Invalid user ID") ∧
    AppError.isNotFoundClass (.ValidationError "Invalid user ID") = false :=
  ⟨rfl, rfl⟩

/-- Claim C8 (amended): for id strings that parse as UUIDs, the lookup
returns the first stored user record whose id matches and fails with
`NotFoundError "User not found"` when no stored user has that id; id
strings that do not parse as UUIDs instead fail with a validation-class
error. -/
theorem C8_lookup_by_id_amended :
    ∀ (users : UserStore) (idStr : String) (uuid : Uuid),
      Uuid.parse_str idStr = some uuid →
      ((users.find? fun p => p.2.id == uuid) = none →
        AuthService.get_user_by_id users idStr =
          .error (.NotFoundError "User not found")) ∧
      (∀ p, (users.find? fun p => p.2.id == uuid) = some p →
        AuthService.get_user_by_id users idStr =
          .ok (UserResponse.ofUser p.2)) ∧
      (∀ s : String, Uuid.parse_str s = none →
        AuthService.get_user_by_id users s =
          .error (.ValidationError "Invalid user ID")) := by
  intro users idStr uuid hp
  refine ⟨?_, ?_, ?_⟩
  · intro hn
    unfold AuthService.get_user_by_id
    rw [hp]
    dsimp only
    rw [hn]
  · intro p hf
    unfold AuthService.get_user_by_id
    rw [hp]
    dsimp only
    rw [hf]
  · intro s hs
    unfold AuthService.get_user_by_id
    rw [hs]

/-- Witness for the amended claim C8: a present id and an absent id, both
well-formed UUIDs, against the sample store. -/
theorem C8_lookup_by_id_amended_witness :
    AuthService.get_user_by_id [("a@example.com", sampleUser)]
        "123e4567-e89b-12d3-a456-426614174000" =
      .ok (UserResponse.ofUser sampleUser) ∧
    AuthService.get_user_by_id [("a@example.com", sampleUser)]
        "00000000-0000-0000-0000-000000000000" =
      .error (.NotFoundError "User not found") :=
  ⟨(C8_lookup_by_id_amended [("a@example.com", sampleUser)]
        "123e4567-e89b-12d3-a456-426614174000"
        "123e4567-e89b-12d3-a456-426614174000" rfl).2.1
      ("a@example.com", sampleUser) rfl,
   (C8_lookup_by_id_amended [("a@example.com", sampleUser)]
        "00000000-0000-0000-0000-000000000000"
        "00000000-0000-0000-0000-000000000000" rfl).1 rfl⟩

end QuickScan
